import Mathlib

/-!
# Verification of the cross-jurisdiction policy / Oracle agreement engine

Shallow embedding of the decision logic found in the repository's
`cli/benchmark_policy.py`, `cli/benchmark_oracle.py`,
`frontend/app/policies/router.py` and `frontend/app/oracle/router.py`.

Python dictionaries are embedded as Lean structures whose fields are the
keys the code actually reads or writes.  Calls to `random.random()`,
`uuid.uuid4().hex` and `datetime.*now()` are embedded as explicit
parameters (the drawn number / hex string / timestamp).  `time.sleep`
calls and terminal output are not modelled: they do not affect any
returned value.
-/

namespace ZkHospital

/-- The `cross_jurisdiction` sub-dictionary attached to a policy request by
`generate_policy_request` in `cli/benchmark_policy.py`.  Each key is read
with `dict.get` and a default, so the fields are optional. -/
structure CrossJurisdictionInfo where
  source_country : Option String
  target_country : Option String
  agreement_id : Option String
deriving DecidableEq, Repr

/-- A policy validation request as built by `generate_policy_request` in
`cli/benchmark_policy.py` (the fields the fallback simulations read). -/
structure PolicyRequest where
  actor_id : String
  actor_role : String
  action : String
  location : String
  resource_id : String
  resource_type : String
  owner_id : String
  cross_jurisdiction : Option CrossJurisdictionInfo
deriving DecidableEq, Repr

/-- The dictionary returned by `simulate_policy_validation_fallback` in
`cli/benchmark_policy.py`. -/
structure PolicyResult where
  allowed : Bool
  reason : String
  validator_id : String
  validator_name : String
  request_id : String
  timestamp : String
deriving DecidableEq, Repr

/-- `simulate_policy_validation_fallback` from `cli/benchmark_policy.py`
(lines 360-405).  `request_id` and `timestamp` stand for the fresh
`uuid.uuid4()` and `datetime.utcnow()` values. -/
def simulate_policy_validation_fallback (request : PolicyRequest)
    (request_id timestamp : String) : PolicyResult :=
  let allowed := true
  let reason := "Policy validation passed"
  let ar :=
    if request.actor_role = "general_doctor" ∨ request.actor_role = "specialist" then
      if ¬ (request.action ∈ ["prescribe", "diagnose", "refer", "issue_certificate"]) then
        (false, "Action " ++ request.action ++ " not allowed for " ++ request.actor_role)
      else (allowed, reason)
    else if request.actor_role = "nurse" then
      if request.action ∈ ["prescribe", "diagnose"] then
        (false, "Action " ++ request.action ++ " not allowed for nurse")
      else (allowed, reason)
    else if request.actor_role = "researcher" then
      if request.action ≠ "access_anonymized_data" then
        (false, "Researchers can only access anonymized data")
      else (allowed, reason)
    else (allowed, reason)
  { allowed := ar.1
    reason := ar.2
    validator_id := "validator_" ++ request.location.toLower
    validator_name := request.location ++ " Health Authority"
    request_id := request_id
    timestamp := timestamp }

/-- `cross_info.get("source_country", request.get("location", "unknown"))` in
`simulate_cross_jurisdiction_validation_fallback` (`cli/benchmark_policy.py`
line 429); requests built by `generate_policy_request` always carry a
`location` key, so the inner default is the request's location. -/
def cross_source (request : PolicyRequest) : String :=
  match request.cross_jurisdiction with
  | some ci => ci.source_country.getD request.location
  | none => request.location

/-- `cross_info.get("target_country", "unknown")` (line 430). -/
def cross_target (request : PolicyRequest) : String :=
  match request.cross_jurisdiction with
  | some ci => ci.target_country.getD "unknown"
  | none => "unknown"

/-- `cross_info.get("agreement_id", "unknown")` (line 441). -/
def cross_agreement_id (request : PolicyRequest) : String :=
  match request.cross_jurisdiction with
  | some ci => ci.agreement_id.getD "unknown"
  | none => "unknown"

/-- The `cross_jurisdiction` sub-dictionary added to the result by
`simulate_cross_jurisdiction_validation_fallback`. -/
structure CrossJurisdictionOutcome where
  source_country : String
  target_country : String
  agreement_valid : Bool
  agreement_id : String
deriving DecidableEq, Repr

/-- The dictionary returned by
`simulate_cross_jurisdiction_validation_fallback`: the base policy result
with the `cross_jurisdiction` key added. -/
structure CrossPolicyResult where
  allowed : Bool
  reason : String
  validator_id : String
  validator_name : String
  request_id : String
  timestamp : String
  cross_jurisdiction : CrossJurisdictionOutcome
deriving DecidableEq, Repr

/-- `simulate_cross_jurisdiction_validation_fallback` from
`cli/benchmark_policy.py` (lines 422-448).  `agreement_valid` stands for
the drawn `random.random() > 0.1` value (the code performs no lookup of a
registered agreement; the coin flip is its only notion of agreement
validity). -/
def simulate_cross_jurisdiction_validation_fallback (request : PolicyRequest)
    (agreement_valid : Bool) (request_id timestamp : String) : CrossPolicyResult :=
  let result := simulate_policy_validation_fallback request request_id timestamp
  let source := cross_source request
  let target := cross_target request
  let outcome : CrossJurisdictionOutcome :=
    { source_country := source
      target_country := target
      agreement_valid := agreement_valid
      agreement_id := cross_agreement_id request }
  if agreement_valid then
    { allowed := result.allowed, reason := result.reason,
      validator_id := result.validator_id, validator_name := result.validator_name,
      request_id := result.request_id, timestamp := result.timestamp,
      cross_jurisdiction := outcome }
  else
    { allowed := false,
      reason := "No valid agreement between " ++ source ++ " and " ++ target,
      validator_id := result.validator_id, validator_name := result.validator_name,
      request_id := result.request_id, timestamp := result.timestamp,
      cross_jurisdiction := outcome }

/-- An RBAC context as built by `benchmark_role_validation` in
`cli/benchmark_policy.py` (the fields `simulate_role_validation_fallback`
reads, plus the `location` it carries along). -/
structure RoleRequest where
  role : String
  resource : String
  action : String
  location : String
deriving DecidableEq, Repr

/-- The dictionary returned by `simulate_role_validation_fallback`. -/
structure RoleResult where
  allowed : Bool
  role : String
  resource : String
  action : String
  policy_id : String
deriving DecidableEq, Repr

/-- The `rbac_matrix` literal inside `simulate_role_validation_fallback`
(`cli/benchmark_policy.py` lines 471-504): role to resource to allowed
actions. -/
def rbac_matrix : List (String × List (String × List String)) :=
  [("doctor",
     [("medical_record", ["read", "write"]),
      ("prescription", ["read", "write", "approve"]),
      ("lab_result", ["read"]),
      ("imaging", ["read", "write"]),
      ("consultation", ["read", "write", "approve"])]),
   ("nurse",
     [("medical_record", ["read", "write"]),
      ("prescription", ["read"]),
      ("lab_result", ["read"]),
      ("imaging", ["read"]),
      ("consultation", ["read", "write"])]),
   ("admin",
     [("medical_record", ["read"]),
      ("prescription", ["read"]),
      ("lab_result", ["read"]),
      ("imaging", ["read"]),
      ("consultation", ["read"])]),
   ("researcher",
     [("medical_record", ["read"]),
      ("lab_result", ["read"]),
      ("imaging", ["read"])]),
   ("pharmacist",
     [("prescription", ["read", "approve"]),
      ("medical_record", ["read"])])]

/-- `simulate_role_validation_fallback` from `cli/benchmark_policy.py`
(lines 465-525): `allowed` starts `False` and becomes `True` only when the
role is in the matrix, the resource is listed for the role, and the action
is listed for that pair.  `uuidHex` stands for the fresh
`uuid.uuid4().hex`. -/
def simulate_role_validation_fallback (request : RoleRequest)
    (uuidHex : String) : RoleResult :=
  let allowed :=
    match rbac_matrix.lookup request.role with
    | some resources =>
      match resources.lookup request.resource with
      | some actions => decide (request.action ∈ actions)
      | none => false
    | none => false
  { allowed := allowed
    role := request.role
    resource := request.resource
    action := request.action
    policy_id := "policy_" ++ uuidHex.take 8 }

/-- A validator-selection request as built by
`benchmark_validator_selection` in `cli/benchmark_policy.py`. -/
structure ValidatorRequest where
  action : String
  location : String
  request_id : String
deriving DecidableEq, Repr

/-- The dictionary returned by `simulate_validator_selection_fallback`
(`validation_time`, a wall-clock reading, is not modelled). -/
structure ValidatorResult where
  validator_id : String
  validator_name : String
  country : String
  validates_for : List String
deriving DecidableEq, Repr

/-- The `validator_mapping` literal inside
`simulate_validator_selection_fallback` (`cli/benchmark_policy.py` lines
552-569): country to (default validator id, validator name). -/
def validator_mapping : List (String × String × String) :=
  [("IN", "mci_validator", "Medical Council of India"),
   ("CA", "health_canada", "Health Canada"),
   ("US", "us_hhs", "US Department of Health & Human Services"),
   ("GB", "nhs_validator", "National Health Service UK")]

/-- `simulate_validator_selection_fallback` from `cli/benchmark_policy.py`
(lines 547-581): a pure lookup on the request's `location` (the `action`
is never consulted), defaulting to the placeholder
`{"default": "unknown", "validator_name": "Unknown"}`. -/
def simulate_validator_selection_fallback (request : ValidatorRequest) :
    ValidatorResult :=
  let country_validators :=
    (validator_mapping.lookup request.location).getD ("unknown", "Unknown")
  { validator_id := country_validators.1
    validator_name := country_validators.2
    country := request.location
    validates_for := ["prescribe", "diagnose", "refer", "issue_certificate"] }

/-- A clause-validation context as built by `benchmark_clause_validation`
in `cli/benchmark_oracle.py` (lines 100-106). -/
structure ClauseContext where
  patient_id : String
  doctor_id : String
  consent_verified : Bool
  location : String
  emergency : Bool
deriving DecidableEq, Repr

/-- `simulate_clause_validation` from `cli/benchmark_oracle.py` (lines
329-334): the returned validity is `random.random() > 0.1`; `randomDraw`
stands for the drawn number.  The agreement id, clause id and context are
accepted but never consulted. -/
def simulate_clause_validation (agreement_id clause_id : String)
    (context : ClauseContext) (randomDraw : ℚ) : Bool :=
  decide (randomDraw > 1/10)

/-- The `preconditions` dictionary of a clause built by
`generate_random_clauses` in `cli/benchmark_oracle.py` (lines 304-309). -/
structure OracleClausePreconditions where
  consent_obtained : Bool
  identity_verified : Bool
  minimum_age : Nat
  emergency_override : Bool
deriving DecidableEq, Repr

/-- The `execute` dictionary of a clause built by
`generate_random_clauses` (lines 310-314). -/
structure OracleClauseExecute where
  log_access : Bool
  notify_patient : Bool
  encrypt_data : Bool
deriving DecidableEq, Repr

/-- A clause as built by `generate_random_clauses` in
`cli/benchmark_oracle.py` (lines 298-315). -/
structure OracleClause where
  clause_id : String
  title : String
  type : String
  description : String
  preconditions : OracleClausePreconditions
  execute : OracleClauseExecute
deriving DecidableEq, Repr

/-- `simulate_agreement_creation` from `cli/benchmark_oracle.py` (lines
322-327): the only returned value is `f"agreement_{uuid.uuid4().hex[:10]}"`;
`uuidHex` stands for the drawn `uuid.uuid4().hex`.  The clause list is
consulted only for the simulated sleep duration; no content hash is
computed. -/
def simulate_agreement_creation (name jurisdiction : String)
    (clauses : List OracleClause) (uuidHex : String) : String :=
  "agreement_" ++ uuidHex.take 10

/-- A precondition value: the spec's preconditions are named boolean or
numeric conditions (spec, section on the Precondition Evaluator). -/
inductive PrecondValue where
  | boolVal : Bool → PrecondValue
  | natVal : Nat → PrecondValue
deriving DecidableEq, Repr

/-- A clause as described by the spec's data model: identifier, title,
type, description, a `Preconditions` map and an `Execute` map. -/
structure SpecClause where
  clause_id : String
  title : String
  type : String
  description : String
  preconditions : List (String × PrecondValue)
  execute : List (String × Bool)
deriving DecidableEq, Repr

/-- A request context as described by the spec's data model: named actor
and resource attributes plus the emergency flag. -/
structure SpecContext where
  attributes : List (String × PrecondValue)
  emergency : Bool
deriving DecidableEq, Repr

/-- Modelled from the spec: the per-entry check of the Precondition
Evaluator, which the repository only reaches through the external backend
API (`src/` holds callers and the random placeholder
`simulate_clause_validation`).  A boolean precondition requires a matching
context attribute with the same value; a numeric precondition (such as
`minimum_age`) requires a matching numeric attribute at or above the
threshold; an attribute missing from the context fails (fail-closed). -/
def precondition_holds (ctx : SpecContext) (key : String)
    (v : PrecondValue) : Bool :=
  match v, ctx.attributes.lookup key with
  | .boolVal b, some (.boolVal b') => b == b'
  | .natVal n, some (.natVal n') => decide (n ≤ n')
  | _, _ => false

/-- Modelled from the spec: ordered evaluation of a clause's precondition
entries; an `emergency_override: true` entry met by a context with the
emergency flag set short-circuits the remaining entries to valid. -/
def spec_evaluate_preconds (ctx : SpecContext) :
    List (String × PrecondValue) → Bool
  | [] => true
  | (key, v) :: rest =>
    if key = "emergency_override" ∧ v = .boolVal true ∧ ctx.emergency then
      true
    else
      precondition_holds ctx key v && spec_evaluate_preconds ctx rest

/-- Modelled from the spec: `Evaluate(clause, ctx)` of the Precondition
Evaluator - a clause is valid iff every precondition entry holds (logical
AND), with the emergency-override short-circuit. -/
def spec_evaluate_clause (clause : SpecClause) (ctx : SpecContext) : Bool :=
  spec_evaluate_preconds ctx clause.preconditions

/-- A concrete clause requiring patient consent (shape of the spec's
`hipaa-phi-access` example scenario). -/
def consentClause : SpecClause :=
  { clause_id := "hipaa-phi-access", title := "HIPAA PHI Access",
    type := "data_access",
    description := "PHI access requires patient consent.",
    preconditions := [("patient_consent", .boolVal true)],
    execute := [("log_access", true)] }

/-- A concrete spec context in which `patient_consent` is false and there
is no emergency. -/
def noConsentSpecContext : SpecContext :=
  { attributes := [("patient_consent", .boolVal false)], emergency := false }

/-- A concrete benchmark context with consent unverified and no
emergency. -/
def noConsentContext : ClauseContext :=
  { patient_id := "patient_1", doctor_id := "doctor_1",
    consent_verified := false, location := "US", emergency := false }

/-- Two benchmark clauses identical except for their `title` field. -/
def clauseA : OracleClause :=
  { clause_id := "clause_00000001", title := "Clause 1", type := "consent",
    description := "Description for clause 1",
    preconditions := { consent_obtained := true, identity_verified := true,
                       minimum_age := 18, emergency_override := false },
    execute := { log_access := true, notify_patient := false,
                 encrypt_data := true } }

/-- Differs from `clauseA` only in `title`. -/
def clauseB : OracleClause :=
  { clauseA with title := "Clause 1 (amended)" }

/-- The backend policy-engine response as read by the frontend handlers:
only the `allowed` key is consulted (`policy_response.get("allowed",
False)`); `body` abstracts the remaining JSON fields. -/
structure PolicyClientResponse where
  allowed : Bool
  body : String
deriving DecidableEq, Repr

/-- The `attributes` sub-dictionary of the actor built by the frontend
handlers. -/
structure SimActorAttributes where
  country : String
deriving DecidableEq, Repr

/-- The `actor` sub-dictionary built by the frontend handlers. -/
structure SimActor where
  id : String
  role : String
  attributes : SimActorAttributes
deriving DecidableEq, Repr

/-- The `resource` sub-dictionary built by the frontend handlers. -/
structure SimResource where
  id : String
  type : String
deriving DecidableEq, Repr

/-- The `validation_request` dictionary built by `simulate_validation` in
`frontend/app/policies/router.py` (lines 142-163); the
`cross_jurisdiction` key is added only when the submitted value is truthy
(neither absent nor the empty string). -/
structure SimValidationRequest where
  actor : SimActor
  action : String
  location : String
  resource : SimResource
  timestamp : String
  client_address : String
  cross_jurisdiction : Option String
deriving DecidableEq, Repr

/-- The `oracle_validation_request` dictionary built by
`simulate_validation` (lines 170-174). -/
structure OracleIntegrationRequest where
  policy_request : SimValidationRequest
  agreement_id : String
  clause_ids : List String
deriving DecidableEq, Repr

/-- The backend oracle-validation response; never inspected by the
handler, so its JSON is abstracted as `body`. -/
structure OracleClientResponse where
  body : String
deriving DecidableEq, Repr

/-- The `combined_response` dictionary returned by `simulate_validation`
(lines 179-187): the oracle part is `None` when the policy engine
denied. -/
structure CombinedResponse where
  policy_validation : PolicyClientResponse
  oracle_validation : Option OracleClientResponse
deriving DecidableEq, Repr

/-- `simulate_validation` from `frontend/app/policies/router.py` (lines
132-189).  `actor_uuid` and `resource_uuid` stand for the fresh
`uuid.uuid4().hex` draws, `timestamp` for `datetime.now()`,
`client_address` for `request.client.host`; `policy_response` is the
awaited `policy_client.validate_action` result and `oracle_client` the
backend behind `policy_client.validate_policy_with_oracle`. -/
def simulate_validation (role action country : String)
    (cross_jurisdiction : Option String)
    (actor_uuid resource_uuid timestamp client_address : String)
    (policy_response : PolicyClientResponse)
    (oracle_client : OracleIntegrationRequest → OracleClientResponse) :
    CombinedResponse :=
  let validation_request : SimValidationRequest :=
    { actor := { id := "actor-" ++ actor_uuid.take 8, role := role,
                 attributes := { country := country } }
      action := action
      location := country
      resource := { id := "resource-" ++ resource_uuid.take 8,
                    type := "medical_record" }
      timestamp := timestamp
      client_address := client_address
      cross_jurisdiction :=
        match cross_jurisdiction with
        | some cj => if cj = "" then none else some cj
        | none => none }
  if policy_response.allowed then
    { policy_validation := policy_response
      oracle_validation := some (oracle_client
        { policy_request := validation_request
          agreement_id := "oracle_agreement_" ++ country ++ "_" ++ action
          clause_ids := ["clause_" ++ country ++ "_" ++ action ++ "_1",
                         "clause_" ++ country ++ "_" ++ action ++ "_2"] }) }
  else
    { policy_validation := policy_response
      oracle_validation := none }

/-- A clause of the frontend oracle router: either a parsed JSON clause or
a line-split fallback clause (`{"id": ..., "text": ...}`). -/
structure FormClause where
  id : String
  text : String
deriving DecidableEq, Repr

/-- The `agreement_data` dictionary built by `create_agreement` in
`frontend/app/oracle/router.py` (lines 192-204). -/
structure AgreementData where
  id : String
  name : String
  description : String
  type : String
  country : String
  cross_jurisdiction : Option String
  clauses : List FormClause
  created_by : String
  created_date : String
  status : String
deriving DecidableEq, Repr

/-- Python's `str.upper()` as applied to the ASCII uuid-hex slice:
uppercase each character. -/
def str_upper (s : String) : String :=
  ⟨s.data.map Char.toUpper⟩

/-- Outcome of the frontend `create_agreement` handler: an
`HTTPException` or a redirect response. -/
inductive CreateAgreementOutcome where
  | httpError (status : Nat) (detail : String)
  | redirect (url : String) (status : Nat)
deriving DecidableEq, Repr

/-- `create_agreement` (the `POST /create` handler) from
`frontend/app/oracle/router.py` (lines 146-222).  `policy_allowed` is the
`allowed` flag of the awaited policy check; `clauses_json` is the result
of `json.loads(clauses)` (`none` on `JSONDecodeError`, in which case the
handler falls back to splitting lines); `uuidHex` stands for the fresh
`uuid.uuid4().hex`, `now` for `datetime.now().isoformat()`.  The demo
handler hard-codes a successful `oracle_response` and persists nothing. -/
def create_agreement (policy_allowed : Bool)
    (name description agreement_type country : String)
    (cross_jurisdiction : Option String) (clauses : String)
    (clauses_json : Option (List FormClause))
    (uuidHex user_id now : String) : CreateAgreementOutcome :=
  if policy_allowed = false then
    .httpError 403
      "Policy restriction: You are not authorized to create oracle agreements"
  else
    let clauses_list :=
      match clauses_json with
      | some l => l
      | none =>
        (clauses.trim.splitOn "\n").enum.filterMap fun ic =>
          if ic.2.trim ≠ "" then
            some { id := "clause_" ++ toString (ic.1 + 1), text := ic.2.trim }
          else
            none
    let agreement_id := "ORA" ++ str_upper (uuidHex.take 8)
    let agreement_data : AgreementData :=
      { id := agreement_id, name := name, description := description,
        type := agreement_type, country := country,
        cross_jurisdiction := cross_jurisdiction, clauses := clauses_list,
        created_by := user_id, created_date := now, status := "Active" }
    let oracle_success := true
    if oracle_success = false then
      .httpError 500 "Failed to create agreement: Unknown error"
    else
      .redirect ("/oracle/" ++ agreement_id) 303

/-- The agreement dictionary assembled by the `agreement_detail` handler
of `frontend/app/oracle/router.py`. -/
structure OraAgreement where
  id : String
  name : String
  description : String
  type : String
  country : String
  cross_jurisdiction : Option String
  created_by : String
  created_date : String
  status : String
  clauses : List FormClause
deriving DecidableEq, Repr

/-- The hard-coded `ora101` agreement (`frontend/app/oracle/router.py`
lines 257-274). -/
def ora101 : OraAgreement :=
  { id := "ora101", name := "Standard Medical Consultation Agreement",
    description := "Standard agreement for medical consultations covering consent, privacy, and professional responsibilities.",
    type := "consent", country := "US", cross_jurisdiction := none,
    created_by := "admin", created_date := "2025-01-15", status := "Active",
    clauses :=
      [⟨"clause1", "Patient provides informed consent for medical consultation."⟩,
       ⟨"clause2", "Doctor confirms identity and credentials are valid."⟩,
       ⟨"clause3", "Patient data will be handled according to HIPAA regulations."⟩,
       ⟨"clause4", "Consultation will be securely recorded with patient consent."⟩,
       ⟨"clause5", "Follow-up care instructions will be provided."⟩] }

/-- The hard-coded `ora102` agreement (lines 275-296). -/
def ora102 : OraAgreement :=
  { id := "ora102", name := "Cross-Border Telemedicine Agreement",
    description := "Agreement for telemedicine consultations across international borders.",
    type := "legal_compliance", country := "IN",
    cross_jurisdiction := some "US",
    created_by := "admin", created_date := "2025-02-22", status := "Active",
    clauses :=
      [⟨"clause1", "Doctor confirms licensure is valid in both jurisdictions."⟩,
       ⟨"clause2", "Patient acknowledges cross-border nature of consultation."⟩,
       ⟨"clause3", "Medical advice follows stricter of the two jurisdiction's standards."⟩,
       ⟨"clause4", "Prescription medications must be legal in patient's jurisdiction."⟩,
       ⟨"clause5", "Emergency referral to local resources will be provided if needed."⟩,
       ⟨"clause6", "Data sovereignty requirements for both countries will be respected."⟩,
       ⟨"clause7", "Dispute resolution will follow international telemedicine standards."⟩,
       ⟨"clause8", "Billing and payments comply with both countries' regulations."⟩] }

/-- The hard-coded `ora103` agreement (lines 297-315). -/
def ora103 : OraAgreement :=
  { id := "ora103", name := "Medication Prescription Protocol",
    description := "Protocol for prescription medications including verification and monitoring procedures.",
    type := "medical_protocol", country := "CA", cross_jurisdiction := none,
    created_by := "admin", created_date := "2025-03-10", status := "Active",
    clauses :=
      [⟨"clause1", "Prescriber must verify patient identity before prescribing."⟩,
       ⟨"clause2", "Patient medical history must be reviewed for contraindications."⟩,
       ⟨"clause3", "Prescription must comply with provincial formulary guidelines."⟩,
       ⟨"clause4", "Controlled substances require additional verification steps."⟩,
       ⟨"clause5", "Monitoring plan must be established for ongoing medications."⟩,
       ⟨"clause6", "Patient must be informed of potential side effects."⟩] }

/-- The mock-agreement selection of `agreement_detail`
(`frontend/app/oracle/router.py` lines 256-332): the three known IDs get
their hard-coded agreements; any other ID gets a generated mock agreement
carrying that very ID. -/
def agreement_detail_agreement (agreement_id user_country : String) :
    OraAgreement :=
  if agreement_id = "ora101" then ora101
  else if agreement_id = "ora102" then ora102
  else if agreement_id = "ora103" then ora103
  else
    { id := agreement_id,
      name := "Example Agreement " ++ agreement_id,
      description := "Generic oracle agreement for demonstration purposes.",
      type := "consent", country := user_country, cross_jurisdiction := none,
      created_by := "admin", created_date := "2025-04-01", status := "Active",
      clauses :=
        [⟨"clause1", "Example clause 1 for this agreement."⟩,
         ⟨"clause2", "Example clause 2 for this agreement."⟩,
         ⟨"clause3", "Example clause 3 for this agreement."⟩] }

/-- An entry of the hard-coded `validation_history` list (lines 335-364);
the first two entries carry no `clauses_failed` key, modelled as
`none`. -/
structure ValidationRecord where
  id : String
  timestamp : String
  actor_id : String
  actor_name : String
  action : String
  status : String
  clauses_validated : List String
  clauses_failed : Option (List String)
deriving DecidableEq, Repr

/-- The hard-coded `validation_history` of `agreement_detail`. -/
def validation_history : List ValidationRecord :=
  [{ id := "val101", timestamp := "2025-05-12T14:30:22",
     actor_id := "doc201", actor_name := "Dr. Sarah Wilson",
     action := "prescribe", status := "Valid",
     clauses_validated := ["clause1", "clause2", "clause3", "clause5"],
     clauses_failed := none },
   { id := "val102", timestamp := "2025-05-10T09:15:48",
     actor_id := "doc202", actor_name := "Dr. James Brown",
     action := "diagnose", status := "Valid",
     clauses_validated := ["clause1", "clause2", "clause4"],
     clauses_failed := none },
   { id := "val103", timestamp := "2025-05-05T16:22:10",
     actor_id := "doc203", actor_name := "Dr. Emily Chen",
     action := "issue_certificate", status := "Invalid",
     clauses_validated := ["clause1", "clause2"],
     clauses_failed := some ["clause3"] }]

/-- Outcome of the `agreement_detail` handler: an `HTTPException` or the
rendered detail page's data. -/
inductive DetailOutcome where
  | httpError (status : Nat) (detail : String)
  | page (agreement : OraAgreement) (history : List ValidationRecord)
deriving DecidableEq, Repr

/-- `agreement_detail` (the `GET /{agreement_id}` handler) from
`frontend/app/oracle/router.py` (lines 224-375).  `policy_allowed` is the
`allowed` flag of the awaited policy check; `user_country` is
`current_user.get("country")`. -/
def agreement_detail (policy_allowed : Bool)
    (agreement_id user_country : String) : DetailOutcome :=
  if policy_allowed = false then
    .httpError 403
      "Policy restriction: You are not authorized to view this oracle agreement"
  else
    .page (agreement_detail_agreement agreement_id user_country)
      validation_history

/-- The `validation_data` dictionary built by the `validate_agreement`
handler (`frontend/app/oracle/router.py` lines 445-461). -/
structure OracleValidationData where
  agreement_id : String
  actor : SimActor
  action : String
  resource : SimResource
  location : String
  timestamp : String
deriving DecidableEq, Repr

/-- The `validation_details` sub-dictionary of the hard-coded
validate-agreement response (lines 474-478). -/
structure ValidationDetails where
  actor_validated : Bool
  action_allowed : Bool
  resource_accessible : Bool
deriving DecidableEq, Repr

/-- The JSON response of the `validate_agreement` handler (lines
467-479). -/
structure AgreementValidationResponse where
  agreement_id : String
  validation_id : String
  timestamp : String
  valid : Bool
  validated_clauses : List String
  failed_clauses : List String
  validation_details : ValidationDetails
deriving DecidableEq, Repr

/-- `validate_agreement` (the `POST /validate/{agreement_id}` handler)
from `frontend/app/oracle/router.py` (lines 434-481): it builds
`validation_data`, never calls the Oracle API, and returns a hard-coded
successful response.  `val_uuid` stands for the fresh `uuid.uuid4().hex`,
`now` for `datetime.now().isoformat()`. -/
def validate_agreement (agreement_id action resource_id resource_type : String)
    (user_id user_role user_country : String)
    (val_uuid now : String) : AgreementValidationResponse :=
  let validation_data : OracleValidationData :=
    { agreement_id := agreement_id
      actor := { id := user_id, role := user_role,
                 attributes := { country := user_country } }
      action := action
      resource := { id := resource_id, type := resource_type }
      location := user_country
      timestamp := now }
  { agreement_id := agreement_id
    validation_id := "val_" ++ val_uuid.take 8
    timestamp := now
    valid := true
    validated_clauses := ["clause1", "clause2", "clause3"]
    failed_clauses := []
    validation_details :=
      { actor_validated := true, action_allowed := true,
        resource_accessible := true } }

/-- A concrete cross-jurisdiction request (specialist diagnosing, CA to US),
of the shape built by `benchmark_cross_jurisdiction` in
`cli/benchmark_policy.py`. -/
def caUsRequest : PolicyRequest :=
  { actor_id := "user_2", actor_role := "specialist", action := "diagnose",
    location := "CA", resource_id := "medical_record_1",
    resource_type := "medical_record", owner_id := "patient_2",
    cross_jurisdiction := some
      { source_country := some "CA", target_country := some "US",
        agreement_id := some "agreement_ab12cd34" } }

end ZkHospital

namespace ZkHospital

/-- C2 (counterexample): on a concrete CA-to-US request whose agreement
draw is invalid, the role check alone would allow, the overall decision is
denied, but the reason string is `"No valid agreement between CA and US"`
(capital `No`), not the claimed exact string
`"no valid agreement between CA and US"`; the result carries no
`compliant` field: the failure is recorded as `agreement_valid = false`. -/
theorem cross_jurisdiction_reason_cex :
    let r := simulate_cross_jurisdiction_validation_fallback caUsRequest false
      "req_2" "2025-05-13T00:00:01Z"
    (simulate_policy_validation_fallback caUsRequest "req_2"
      "2025-05-13T00:00:01Z").allowed = true ∧
    r.allowed = false ∧
    r.reason = "No valid agreement between CA and US" ∧
    r.reason ≠ "no valid agreement between CA and US" ∧
    r.cross_jurisdiction.agreement_valid = false := by
  refine ⟨rfl, rfl, rfl, ?_, rfl⟩
  decide

/-- C2 (amended): whenever the agreement draw is invalid, every
cross-jurisdiction request is denied with reason
`"No valid agreement between <source> and <target>"` and
`agreement_valid = false`, overriding whatever the base role-based
validation decided. -/
theorem cross_jurisdiction_no_agreement_denies :
    ∀ (request : PolicyRequest) (request_id timestamp : String),
    (simulate_cross_jurisdiction_validation_fallback request false
      request_id timestamp).allowed = false ∧
    (simulate_cross_jurisdiction_validation_fallback request false
      request_id timestamp).reason =
      "No valid agreement between " ++ cross_source request ++ " and " ++
        cross_target request ∧
    (simulate_cross_jurisdiction_validation_fallback request false
      request_id timestamp).cross_jurisdiction.agreement_valid = false := by
  intro request request_id timestamp
  exact ⟨rfl, rfl, rfl⟩

/-- C4 (counterexample): at a concrete request with role `nurse` and action
`prescribe`, the fallback denies, but its reason string is
`"Action prescribe not allowed for nurse"`, not the claimed exact string
`"action not permitted for role"`. -/
theorem nurse_prescribe_reason_cex :
    let r := simulate_policy_validation_fallback
      { actor_id := "user_1", actor_role := "nurse", action := "prescribe",
        location := "US", resource_id := "prescription_1",
        resource_type := "prescription", owner_id := "patient_1",
        cross_jurisdiction := none } "req_1" "2025-05-13T00:00:00Z"
    r.allowed = false ∧
    r.reason = "Action prescribe not allowed for nurse" ∧
    r.reason ≠ "action not permitted for role" := by
  refine ⟨rfl, rfl, ?_⟩
  decide

/-- C4 (amended): every request with actor role `nurse` and action
`prescribe` is denied with reason `"Action prescribe not allowed for
nurse"`; the fallback contains no clause evaluation at all, so none is
performed for such a request. -/
theorem nurse_prescribe_denied :
    ∀ (aid loc rid rty oid : String) (cj : Option CrossJurisdictionInfo)
      (request_id timestamp : String),
    (simulate_policy_validation_fallback
      { actor_id := aid, actor_role := "nurse", action := "prescribe",
        location := loc, resource_id := rid, resource_type := rty,
        owner_id := oid, cross_jurisdiction := cj }
      request_id timestamp).allowed = false ∧
    (simulate_policy_validation_fallback
      { actor_id := aid, actor_role := "nurse", action := "prescribe",
        location := loc, resource_id := rid, resource_type := rty,
        owner_id := oid, cross_jurisdiction := cj }
      request_id timestamp).reason = "Action prescribe not allowed for nurse" := by
  intro aid loc rid rty oid cj request_id timestamp
  exact ⟨rfl, rfl⟩

/-- C6: role validation is default-deny.  Whenever the action is not found
by the role-resource-action lookup chain (because the role is not
registered, or the resource is not listed for the role, or the action is
not listed for that pair - each failure makes the chained list empty or
action-free), `simulate_role_validation_fallback` answers
`allowed = false`. -/
theorem role_validation_default_deny (request : RoleRequest) (uuidHex : String)
    (h : request.action ∉
      (((rbac_matrix.lookup request.role).getD []).lookup
        request.resource).getD []) :
    (simulate_role_validation_fallback request uuidHex).allowed = false := by
  unfold simulate_role_validation_fallback
  cases h1 : rbac_matrix.lookup request.role with
  | none => simp
  | some resources =>
    rw [h1] at h
    simp only [Option.getD_some] at h
    dsimp only
    cases h2 : resources.lookup request.resource with
    | none => rfl
    | some actions =>
      rw [h2] at h
      simp only [Option.getD_some] at h
      exact decide_eq_false h

/-- C6 (witness): a nurse may not `write` a `prescription` (the matrix
lists only `read` for that pair), so the fallback denies. -/
theorem role_validation_default_deny_witness :
    (simulate_role_validation_fallback
      { role := "nurse", resource := "prescription", action := "write",
        location := "US" } "ab12cd34").allowed = false :=
  role_validation_default_deny
    { role := "nurse", resource := "prescription", action := "write",
      location := "US" } "ab12cd34" (by decide)

/-- C7 (counterexample): for the concrete pair (`prescribe`, `FR`) no
validator is registered, yet resolution does not fail: the fallback
returns the placeholder validator `unknown` / `Unknown` (and no
`"no validator for jurisdiction"` decision path exists). -/
theorem validator_selection_placeholder_cex :
    simulate_validator_selection_fallback
      { action := "prescribe", location := "FR", request_id := "req_3" } =
    { validator_id := "unknown", validator_name := "Unknown", country := "FR",
      validates_for := ["prescribe", "diagnose", "refer", "issue_certificate"] } := by
  rfl

/-- C7 (amended): for every (action, location) request whose location has
no entry in `validator_mapping` (the action is never consulted), the
fallback returns the placeholder validator with id `"unknown"` and name
`"Unknown"` instead of failing with `NoValidatorError`. -/
theorem validator_selection_unknown_location (request : ValidatorRequest)
    (h : validator_mapping.lookup request.location = none) :
    (simulate_validator_selection_fallback request).validator_id = "unknown" ∧
    (simulate_validator_selection_fallback request).validator_name = "Unknown" := by
  unfold simulate_validator_selection_fallback
  rw [h]
  exact ⟨rfl, rfl⟩

/-- C7 (witness): instantiated at (`diagnose`, `BR`). -/
theorem validator_selection_unknown_location_witness :
    (simulate_validator_selection_fallback
      { action := "diagnose", location := "BR", request_id := "req_4" }).validator_id
        = "unknown" ∧
    (simulate_validator_selection_fallback
      { action := "diagnose", location := "BR", request_id := "req_4" }).validator_name
        = "Unknown" :=
  validator_selection_unknown_location
    { action := "diagnose", location := "BR", request_id := "req_4" } (by decide)

/-- C1: `simulate_clause_validation` ignores preconditions entirely.  Its
result is invariant under any change of context; at a fixed concrete
clause and context whose consent precondition fails (so evaluation per the
spec would be invalid, as the modelled evaluator shows), it still answers
valid for the draw 0.5, while the same call answers invalid for the draw
0.05 - the result is a function of the random draw alone. -/
theorem clause_validation_ignores_preconditions :
    (∀ (agreement_id clause_id : String) (ctx ctx' : ClauseContext) (r : ℚ),
      simulate_clause_validation agreement_id clause_id ctx r =
        simulate_clause_validation agreement_id clause_id ctx' r) ∧
    simulate_clause_validation "agreement_1" "hipaa-phi-access"
      noConsentContext (1/2) = true ∧
    simulate_clause_validation "agreement_1" "hipaa-phi-access"
      noConsentContext (1/20) = false ∧
    spec_evaluate_clause consentClause noConsentSpecContext = false := by
  refine ⟨fun _ _ _ _ _ => rfl, ?_, ?_, ?_⟩
  · norm_num [simulate_clause_validation]
  · norm_num [simulate_clause_validation]
  · decide

/-- C3: `simulate_agreement_creation` computes no content hash.  Its only
output is `agreement_` followed by the fresh uuid hex: the output is
invariant under any change of the clause list, two creations with clause
lists differing in a clause's `title` field and the same draw coincide,
and two creations with identical clause content but different draws
differ. -/
theorem agreement_creation_no_content_hash :
    (∀ (name jurisdiction : String) (clauses clauses' : List OracleClause)
      (uuidHex : String),
      simulate_agreement_creation name jurisdiction clauses uuidHex =
        simulate_agreement_creation name jurisdiction clauses' uuidHex) ∧
    clauseA ≠ clauseB ∧
    simulate_agreement_creation "Agreement 1" "US-HIPAA" [clauseA]
        "0123456789abcdef" =
      simulate_agreement_creation "Agreement 1" "US-HIPAA" [clauseB]
        "0123456789abcdef" ∧
    simulate_agreement_creation "Agreement 1" "US-HIPAA" [clauseA]
        "aaaaaaaaaa000000" ≠
      simulate_agreement_creation "Agreement 1" "US-HIPAA" [clauseA]
        "bbbbbbbbbb000000" := by
  refine ⟨fun _ _ _ _ _ => rfl, ?_, rfl, ?_⟩ <;> decide

/-- C5: when the policy engine denies (`allowed = false`), the frontend
validation simulator returns `oracle_validation = None` and its output is
independent of the oracle backend - no oracle clause evaluation occurs,
and the per-clause validation results are absent. -/
theorem rbac_denial_skips_oracle :
    ∀ (role action country : String) (cross_jurisdiction : Option String)
      (actor_uuid resource_uuid timestamp client_address body : String)
      (oracle_client oracle_client' :
        OracleIntegrationRequest → OracleClientResponse),
    (simulate_validation role action country cross_jurisdiction actor_uuid
      resource_uuid timestamp client_address ⟨false, body⟩
      oracle_client).oracle_validation = none ∧
    simulate_validation role action country cross_jurisdiction actor_uuid
      resource_uuid timestamp client_address ⟨false, body⟩ oracle_client =
      simulate_validation role action country cross_jurisdiction actor_uuid
        resource_uuid timestamp client_address ⟨false, body⟩ oracle_client' := by
  intro role action country cross_jurisdiction actor_uuid resource_uuid
    timestamp client_address body oracle_client oracle_client'
  exact ⟨rfl, rfl⟩

/-- C8 (counterexample): at concrete policy-allowed inputs, a creation
request with an empty clause list (`"[]"` parses to `[]`) and one with two
clauses sharing the id `clause1` both succeed with a redirect - no
`ValidationError` is raised. -/
theorem create_agreement_accepts_empty_clauses_cex :
    create_agreement true "Test Agreement" "A test agreement" "consent" "US"
        none "[]" (some []) "abcd1234ef567890" "user1"
        "2025-05-01T00:00:00" =
      .redirect "/oracle/ORAABCD1234" 303 ∧
    create_agreement true "Test Agreement" "A test agreement" "consent" "US"
        none "ignored" (some [⟨"clause1", "first"⟩, ⟨"clause1", "second"⟩])
        "abcd1234ef567890" "user1" "2025-05-01T00:00:00" =
      .redirect "/oracle/ORAABCD1234" 303 := by
  exact ⟨rfl, rfl⟩

/-- C8 (amended): for every policy-allowed creation request - whatever the
clause payload, including an empty clause list or duplicate clause IDs -
the frontend handler reports success and redirects to the new agreement
page; input validation is left to the external backend, which `src/` only
calls. -/
theorem create_agreement_always_succeeds :
    ∀ (name description agreement_type country : String)
      (cross_jurisdiction : Option String) (clauses : String)
      (clauses_json : Option (List FormClause)) (uuidHex user_id now : String),
    create_agreement true name description agreement_type country
        cross_jurisdiction clauses clauses_json uuidHex user_id now =
      .redirect ("/oracle/" ++ ("ORA" ++ str_upper (uuidHex.take 8))) 303 := by
  intro name description agreement_type country cross_jurisdiction clauses
    clauses_json uuidHex user_id now
  rfl

/-- C9 (counterexample): for the unknown ID `ora999` (and an authorized
user), the detail handler does not fail with NotFound: it fabricates and
returns a substitute agreement carrying that very ID. -/
theorem agreement_detail_fabricates_cex :
    agreement_detail true "ora999" "US" =
      .page
        { id := "ora999", name := "Example Agreement ora999",
          description := "Generic oracle agreement for demonstration purposes.",
          type := "consent", country := "US", cross_jurisdiction := none,
          created_by := "admin", created_date := "2025-04-01",
          status := "Active",
          clauses :=
            [⟨"clause1", "Example clause 1 for this agreement."⟩,
             ⟨"clause2", "Example clause 2 for this agreement."⟩,
             ⟨"clause3", "Example clause 3 for this agreement."⟩] }
        validation_history := by
  rfl

/-- C9 (amended): for every AgreementID other than `ora101`, `ora102` and
`ora103`, the authorized detail view returns a generated placeholder
agreement with that ID (named `Example Agreement <id>`, three example
clauses, the user's country) - it never fails with NotFound. -/
theorem agreement_detail_unknown_id_placeholder
    (agreement_id user_country : String)
    (h1 : agreement_id ≠ "ora101") (h2 : agreement_id ≠ "ora102")
    (h3 : agreement_id ≠ "ora103") :
    agreement_detail true agreement_id user_country =
      .page
        { id := agreement_id,
          name := "Example Agreement " ++ agreement_id,
          description := "Generic oracle agreement for demonstration purposes.",
          type := "consent", country := user_country,
          cross_jurisdiction := none, created_by := "admin",
          created_date := "2025-04-01", status := "Active",
          clauses :=
            [⟨"clause1", "Example clause 1 for this agreement."⟩,
             ⟨"clause2", "Example clause 2 for this agreement."⟩,
             ⟨"clause3", "Example clause 3 for this agreement."⟩] }
        validation_history := by
  unfold agreement_detail agreement_detail_agreement
  rw [if_neg (by decide), if_neg h1, if_neg h2, if_neg h3]

/-- C9 (witness): instantiated at the unknown ID `ora999`. -/
theorem agreement_detail_unknown_id_placeholder_witness :
    agreement_detail true "ora999" "CA" =
      .page
        { id := "ora999", name := "Example Agreement " ++ "ora999",
          description := "Generic oracle agreement for demonstration purposes.",
          type := "consent", country := "CA", cross_jurisdiction := none,
          created_by := "admin", created_date := "2025-04-01",
          status := "Active",
          clauses :=
            [⟨"clause1", "Example clause 1 for this agreement."⟩,
             ⟨"clause2", "Example clause 2 for this agreement."⟩,
             ⟨"clause3", "Example clause 3 for this agreement."⟩] }
        validation_history :=
  agreement_detail_unknown_id_placeholder "ora999" "CA" (by decide)
    (by decide) (by decide)

/-- C10: for every submitted input, the agreement-validation endpoint
returns `valid = true` with `validated_clauses` exactly
`["clause1", "clause2", "clause3"]` and an empty `failed_clauses` list; no
input can produce an invalid result. -/
theorem validate_agreement_always_valid :
    ∀ (agreement_id action resource_id resource_type : String)
      (user_id user_role user_country : String) (val_uuid now : String),
    (validate_agreement agreement_id action resource_id resource_type
      user_id user_role user_country val_uuid now).valid = true ∧
    (validate_agreement agreement_id action resource_id resource_type
      user_id user_role user_country val_uuid now).validated_clauses =
      ["clause1", "clause2", "clause3"] ∧
    (validate_agreement agreement_id action resource_id resource_type
      user_id user_role user_country val_uuid now).failed_clauses = [] := by
  intro agreement_id action resource_id resource_type user_id user_role
    user_country val_uuid now
  exact ⟨rfl, rfl, rfl⟩

end ZkHospital
